import Mathlib

/-!
Verification of the SOILD_PRINCIPLES repository against its specification.

The embedding translates the Python sources under SOILD_PRINCIPLES into Lean:

- OCP.py : the Specification pattern (Color, Size, Product, the Specification
  hierarchy ColorSpecification / SizeSpecification / AndSpecification, the
  BetterFilter.filter generator, and the module-level usage example).
- SRP.py : the Journal class (add_entry, remove_entry) as explicit state passing.
- LSP.py : the Rectangle / Square hierarchy with its property setters.

Python classes with a single abstract method become an inductive type of the
concrete variants, and the duck-typed dispatch of is_satisfied becomes the
match on that inductive type. Generators become the list of values they yield.
Mutation becomes explicit state passing. Python exceptions become Except.
-/

namespace OCP

/-- Embedding of the Color enum of OCP.py. -/
inductive Color where
  | RED
  | GREEN
  | BLUE
deriving DecidableEq, BEq, Repr

/-- Embedding of the Size enum of OCP.py. -/
inductive Size where
  | SMALL
  | MEDIUM
  | LARGE
deriving DecidableEq, BEq, Repr

/-- Embedding of the Product class of OCP.py: a name, a color and a size,
all set by the constructor. -/
structure Product where
  name : String
  color : Color
  size : Size
deriving DecidableEq, Repr

/-- The concrete Specification variants of OCP.py. The abstract base class
Specification has exactly these three concrete subclasses in the source;
duck-typed dispatch of is_satisfied becomes a match on this type.
Each variant stores the constructor parameters of the Python class. -/
inductive Spec where
  | ColorSpecification (color : Color)
  | SizeSpecification (size : Size)
  | AndSpecification (spec1 spec2 : Spec)
deriving DecidableEq, Repr

/-- Embedding of the is_satisfied methods of OCP.py.
ColorSpecification returns item.color == self.color;
SizeSpecification returns self.size == item.size;
AndSpecification returns spec1.is_satisfied(item) and spec2.is_satisfied(item),
where the Python and operator short-circuits, as the Lean && does. -/
def Spec.is_satisfied : Spec → Product → Bool
  | .ColorSpecification c, item => item.color == c
  | .SizeSpecification s, item => s == item.size
  | .AndSpecification s1 s2, item => s1.is_satisfied item && s2.is_satisfied item

/-- Embedding of BetterFilter.filter of OCP.py: the generator yields, in input
order, every item of the list for which spec.is_satisfied(item) is true.
The embedding is the list of yielded values. -/
def BetterFilter.filter : List Product → Spec → List Product
  | [], _ => []
  | item :: rest, spec =>
    if spec.is_satisfied item then item :: BetterFilter.filter rest spec
    else BetterFilter.filter rest spec

/-- The Python TypeError raised when neither operand of a binary operator
supports it. -/
inductive PyTypeError where
  | typeError
deriving DecidableEq, Repr

/-- Which classes of OCP.py define the dunder method for the & operator:
in the source it is defined only inside the AndSpecification class
(lines 184-193); neither the Specification base class nor
ColorSpecification nor SizeSpecification defines it, and no class defines
the reflected variant for the right operand. -/
def Spec.hasAndMethod : Spec → Bool
  | .AndSpecification _ _ => true
  | _ => false

/-- Embedding of the Python expression a & b over specifications.
Python resolves a & b by calling the dunder and-method of the class of a
when it exists; otherwise it would try the reflected method on b, which no
class in OCP.py defines, so it raises TypeError. When the method exists
(only on AndSpecification) it returns AndSpecification(self, other). -/
def Spec.andOp (a b : Spec) : Except PyTypeError Spec :=
  if a.hasAndMethod then Except.ok (Spec.AndSpecification a b)
  else Except.error PyTypeError.typeError

/-- A duck-typed Python object passed to is_satisfied: it may or may not
carry the color and size attributes. A Product always carries both. -/
structure DuckItem where
  colorAttr : Option Color
  sizeAttr : Option Size
deriving DecidableEq, Repr

/-- Error kinds for attribute access. attributeError is what Python raises
when an attribute is missing. missingAttribute is the failure kind named by
the specification taxonomy; it appears nowhere in the source and is listed
here only so that statements can compare the source behaviour with the
kind the specification asks for. -/
inductive PyErr where
  | attributeError
  | missingAttribute
deriving DecidableEq, Repr

/-- Reading item.color on a duck-typed object: AttributeError when absent. -/
def DuckItem.getColor (i : DuckItem) : Except PyErr Color :=
  match i.colorAttr with
  | some c => Except.ok c
  | none => Except.error PyErr.attributeError

/-- Reading item.size on a duck-typed object: AttributeError when absent. -/
def DuckItem.getSize (i : DuckItem) : Except PyErr Size :=
  match i.sizeAttr with
  | some s => Except.ok s
  | none => Except.error PyErr.attributeError

/-- Embedding of the is_satisfied methods of OCP.py evaluated on a duck-typed
item, making attribute access explicit: an exception from an attribute read
propagates to the caller, and the Python and operator propagates an exception
of its left operand and skips the right operand when the left is falsy. -/
def Spec.is_satisfiedE : Spec → DuckItem → Except PyErr Bool
  | .ColorSpecification c, item =>
    match item.getColor with
    | Except.ok ic => Except.ok (ic == c)
    | Except.error e => Except.error e
  | .SizeSpecification s, item =>
    match item.getSize with
    | Except.ok isz => Except.ok (s == isz)
    | Except.error e => Except.error e
  | .AndSpecification s1 s2, item =>
    match s1.is_satisfiedE item with
    | Except.error e => Except.error e
    | Except.ok true => s2.is_satisfiedE item
    | Except.ok false => Except.ok false

/-- State-passing embedding of is_satisfied: each method body only reads
attributes of the item and of the specification, so the embedding threads the
item and the specification through the evaluation and returns them with the
boolean. The AndSpecification case threads the state through the left child
first and through the right child only when the left returned true, exactly
as the short-circuiting Python and operator evaluates. -/
def Spec.is_satisfiedRun : Spec → Product → Bool × Product × Spec
  | s@(.ColorSpecification c), item => (item.color == c, item, s)
  | s@(.SizeSpecification sz), item => (sz == item.size, item, s)
  | .AndSpecification s1 s2, item =>
    let r1 := s1.is_satisfiedRun item
    if r1.1 then
      let r2 := s2.is_satisfiedRun r1.2.1
      (r2.1, r2.2.1, Spec.AndSpecification r1.2.2 r2.2.2)
    else
      (false, r1.2.1, Spec.AndSpecification r1.2.2 s2)

/-- Short-circuiting evaluation of a specification, stopping at the first
false child left-to-right, written with the stop made explicit: this is how
the Python and operator in AndSpecification.is_satisfied evaluates. -/
def Spec.is_satisfied_sc : Spec → Product → Bool
  | .ColorSpecification c, item => item.color == c
  | .SizeSpecification s, item => s == item.size
  | .AndSpecification s1 s2, item =>
    match s1.is_satisfied_sc item with
    | false => false
    | true => s2.is_satisfied_sc item

/-- Evaluation following the words of the specification for the comparison in
the refinement claim: fully evaluate both children of a composite and conjoin
the two results. -/
def Spec.is_satisfied_full : Spec → Product → Bool
  | .ColorSpecification c, item => item.color == c
  | .SizeSpecification s, item => s == item.size
  | .AndSpecification s1 s2, item =>
    let b1 := s1.is_satisfied_full item
    let b2 := s2.is_satisfied_full item
    b1 && b2

/-- The apple of the usage example of OCP.py. -/
def apple : Product := { name := "Apple", color := Color.GREEN, size := Size.SMALL }

/-- The tree of the usage example of OCP.py. -/
def tree : Product := { name := "Tree", color := Color.GREEN, size := Size.LARGE }

/-- The house of the usage example of OCP.py. -/
def house : Product := { name := "House", color := Color.BLUE, size := Size.LARGE }

/-- The products list of the usage example of OCP.py. -/
def products : List Product := [apple, tree, house]

/-- The green ColorSpecification of the usage example. -/
def green : Spec := Spec.ColorSpecification Color.GREEN

/-- The large SizeSpecification of the usage example. -/
def large : Spec := Spec.SizeSpecification Size.LARGE

end OCP

namespace SRP

/-- Embedding of the Journal class of SRP.py: a list of entry strings and a
counter, both set by the constructor to empty and zero. The counter is a
Python int, embedded as Int. -/
structure Journal where
  entries : List String
  count : Int
deriving DecidableEq, Repr

/-- Embedding of the Journal constructor: empty entries, count zero. -/
def Journal.new : Journal := { entries := [], count := 0 }

/-- Embedding of Journal.add_entry: the count is incremented first, then the
string built from the new count and the text is appended to the entries. -/
def Journal.add_entry (j : Journal) (text : String) : Journal :=
  let c := j.count + 1
  { entries := j.entries ++ [s!"{c}: {text}"], count := c }

/-- Embedding of Journal.remove_entry at a valid non-negative position: the
entry at that index is deleted and the count is decremented. -/
def Journal.remove_entry (j : Journal) (pos : Nat) : Journal :=
  { entries := j.entries.eraseIdx pos, count := j.count - 1 }

/-- One operation on a journal: an add_entry call or a remove_entry call. -/
inductive JOp where
  | add (text : String)
  | remove (pos : Nat)
deriving DecidableEq, Repr

/-- Running one operation on a journal. -/
def Journal.applyOp (j : Journal) : JOp → Journal
  | .add text => j.add_entry text
  | .remove pos => j.remove_entry pos

/-- Validity of one operation: add_entry is always valid, remove_entry needs
a position inside the current entries list. -/
def JOp.validOn (j : Journal) : JOp → Bool
  | .add _ => true
  | .remove pos => pos < j.entries.length

/-- Running a sequence of operations left to right. -/
def Journal.run (j : Journal) : List JOp → Journal
  | [] => j
  | op :: ops => (j.applyOp op).run ops

/-- Validity of a sequence of operations: each operation is valid on the
state reached by running the ones before it. -/
def ValidSeq : Journal → List JOp → Bool
  | _, [] => true
  | j, op :: ops => JOp.validOn j op && ValidSeq (j.applyOp op) ops

end SRP

namespace LSP

/-- Embedding of the Rectangle state of LSP.py: the two underscore-prefixed
instance attributes holding width and height, both Python ints. The width
and height property getters return these fields unchanged. -/
structure Rectangle where
  width : Int
  height : Int
deriving DecidableEq, Repr

/-- Embedding of the Rectangle area property: width times height. -/
def Rectangle.area (r : Rectangle) : Int := r.width * r.height

/-- Embedding of the Rectangle width setter: stores the value in the width
attribute and touches nothing else. -/
def Rectangle.setWidth (r : Rectangle) (value : Int) : Rectangle :=
  { r with width := value }

/-- Embedding of the Rectangle height setter: stores the value in the height
attribute and touches nothing else. -/
def Rectangle.setHeight (r : Rectangle) (value : Int) : Rectangle :=
  { r with height := value }

/-- Embedding of the Square constructor: both attributes set to the size. -/
def Square.new (size : Int) : Rectangle :=
  { width := size, height := size }

/-- Embedding of the overriding Square width setter: the chained assignment
stores the value in both the width and the height attribute. -/
def Square.setWidth (_r : Rectangle) (value : Int) : Rectangle :=
  { width := value, height := value }

/-- Embedding of the overriding Square height setter: the chained assignment
stores the value in both the height and the width attribute. -/
def Square.setHeight (_r : Rectangle) (value : Int) : Rectangle :=
  { width := value, height := value }

/-- Embedding of use_it of LSP.py, parametric in the height setter the
dynamic dispatch selects: reads the width, sets the height to 10, and
returns the expected area width times 10 next to the actual area. -/
def use_it (setH : Rectangle → Int → Rectangle) (rc : Rectangle) : Int × Int :=
  let w := rc.width
  let rc2 := setH rc 10
  (w * 10, rc2.area)

end LSP

/-- C1: for every pair of specifications S1, S2 and every item I, the
AND-composite of S1 and S2 evaluates to true on I exactly when both
S1.is_satisfied(I) and S2.is_satisfied(I) evaluate to true. -/
theorem andSpecification_is_satisfied_iff (S1 S2 : OCP.Spec) (I : OCP.Product) :
    (OCP.Spec.AndSpecification S1 S2).is_satisfied I = true ↔
      (S1.is_satisfied I = true ∧ S2.is_satisfied I = true) := by
  simp [OCP.Spec.is_satisfied]

/-- C5: AND-combination is associative: for all specifications S1, S2, S3 and
every item I, nesting the composite to the left and nesting it to the right
evaluate to the same boolean on I. -/
theorem andSpecification_assoc (S1 S2 S3 : OCP.Spec) (I : OCP.Product) :
    (OCP.Spec.AndSpecification (OCP.Spec.AndSpecification S1 S2) S3).is_satisfied I =
      (OCP.Spec.AndSpecification S1 (OCP.Spec.AndSpecification S2 S3)).is_satisfied I := by
  simp [OCP.Spec.is_satisfied, Bool.and_assoc]

/-- C4: on the usage example items Apple(GREEN, SMALL), Tree(GREEN, LARGE),
House(BLUE, LARGE) in that order, filtering by the green color specification
yields Apple and Tree, filtering by the AND-combination of the large size
specification and a blue color specification yields House, and filtering by
the large size specification yields Tree and House. -/
theorem usage_example_filter_results :
    OCP.BetterFilter.filter OCP.products OCP.green = [OCP.apple, OCP.tree] ∧
    OCP.BetterFilter.filter OCP.products
        (OCP.Spec.AndSpecification OCP.large (OCP.Spec.ColorSpecification OCP.Color.BLUE))
      = [OCP.house] ∧
    OCP.BetterFilter.filter OCP.products OCP.large = [OCP.tree, OCP.house] := by
  refine ⟨rfl, rfl, rfl⟩

/-- C2: BetterFilter.filter yields exactly the items of the input collection
satisfying the specification, in the input order (it equals the standard
stable list filter and is a sublist of the input), and filtering an empty
collection yields the empty sequence. -/
theorem betterFilter_filter_spec (C : List OCP.Product) (S : OCP.Spec) :
    OCP.BetterFilter.filter C S = C.filter (fun i => S.is_satisfied i) ∧
    (OCP.BetterFilter.filter C S).Sublist C ∧
    OCP.BetterFilter.filter [] S = [] := by
  have hfil : ∀ (l : List OCP.Product),
      OCP.BetterFilter.filter l S = l.filter (fun i => S.is_satisfied i) := by
    intro l
    induction l with
    | nil => rfl
    | cons a l ih =>
      by_cases h : S.is_satisfied a
      · simp [OCP.BetterFilter.filter, h, ih, List.filter]
      · simp [OCP.BetterFilter.filter, h, ih, List.filter,
          Bool.eq_false_iff.mpr h]
  refine ⟨hfil C, ?_, rfl⟩
  rw [hfil C]
  exact List.filter_sublist C

/-- C3: the & operator of the source fails on the very combination the usage
example performs: the left operand is a SizeSpecification, whose class does
not define the dunder and-method (it is defined only on AndSpecification),
and no class defines the reflected method, so Python raises TypeError instead
of returning a composite specification. -/
theorem sizeSpec_and_colorSpec_raises_typeError :
    OCP.Spec.andOp (OCP.Spec.SizeSpecification OCP.Size.LARGE)
        (OCP.Spec.ColorSpecification OCP.Color.BLUE)
      = Except.error OCP.PyTypeError.typeError := rfl

/-- C6: evaluating a specification on an item mutates neither the item nor
the specification: the state-passing embedding returns the item and the
specification unchanged, its boolean agrees with is_satisfied, and a second
evaluation of the returned (spec, item) pair returns the same boolean. -/
theorem is_satisfied_no_mutation (S : OCP.Spec) (I : OCP.Product) :
    (S.is_satisfiedRun I).2.1 = I ∧
    (S.is_satisfiedRun I).2.2 = S ∧
    (S.is_satisfiedRun I).1 = S.is_satisfied I ∧
    ((S.is_satisfiedRun I).2.2.is_satisfiedRun (S.is_satisfiedRun I).2.1).1 =
      (S.is_satisfiedRun I).1 := by
  have key : ∀ (s : OCP.Spec) (i : OCP.Product),
      (s.is_satisfiedRun i).2.1 = i ∧
      (s.is_satisfiedRun i).2.2 = s ∧
      (s.is_satisfiedRun i).1 = s.is_satisfied i := by
    intro s
    induction s with
    | ColorSpecification c => intro i; exact ⟨rfl, rfl, rfl⟩
    | SizeSpecification sz => intro i; exact ⟨rfl, rfl, rfl⟩
    | AndSpecification s1 s2 ih1 ih2 =>
      intro i
      obtain ⟨hi1, hs1, hb1⟩ := ih1 i
      cases hb : (s1.is_satisfiedRun i).1 with
      | false =>
        have h1s : s1.is_satisfied i = false := by rw [← hb1, hb]
        refine ⟨?_, ?_, ?_⟩ <;>
          simp [OCP.Spec.is_satisfiedRun, OCP.Spec.is_satisfied, hb, hi1, hs1, h1s]
      | true =>
        obtain ⟨hi2, hs2, hb2⟩ := ih2 (s1.is_satisfiedRun i).2.1
        rw [hi1] at hi2 hs2 hb2
        have h1s : s1.is_satisfied i = true := by rw [← hb1, hb]
        refine ⟨?_, ?_, ?_⟩ <;>
          simp [OCP.Spec.is_satisfiedRun, OCP.Spec.is_satisfied, hb, hi1, hs1,
            hi2, hs2, hb2, h1s]
  obtain ⟨hi, hs, hb⟩ := key S I
  refine ⟨hi, hs, hb, ?_⟩
  rw [hi, hs]

/-- C8: the short-circuiting evaluation of a composite AND specification,
stopping at the first false child left-to-right, returns the same boolean as
fully evaluating both children and conjoining: the short-circuit is
externally unobservable. -/
theorem short_circuit_unobservable (S : OCP.Spec) (I : OCP.Product) :
    S.is_satisfied_sc I = S.is_satisfied_full I := by
  induction S with
  | ColorSpecification c => rfl
  | SizeSpecification sz => rfl
  | AndSpecification s1 s2 ih1 ih2 =>
    simp only [OCP.Spec.is_satisfied_sc, OCP.Spec.is_satisfied_full, ih1, ih2]
    cases s1.is_satisfied_full I <;> simp

/-- C7 counterexample: on an item lacking the color attribute, the color
specification of the source does not produce the missingAttribute failure
kind the claim names: it raises the plain Python AttributeError. -/
theorem missing_color_gives_attributeError :
    OCP.Spec.is_satisfiedE (OCP.Spec.ColorSpecification OCP.Color.GREEN)
        { colorAttr := none, sizeAttr := some OCP.Size.SMALL }
      = Except.error OCP.PyErr.attributeError ∧
    OCP.Spec.is_satisfiedE (OCP.Spec.ColorSpecification OCP.Color.GREEN)
        { colorAttr := none, sizeAttr := some OCP.Size.SMALL }
      ≠ Except.error OCP.PyErr.missingAttribute := by
  refine ⟨rfl, fun h => ?_⟩
  have h2 : (Except.error OCP.PyErr.attributeError : Except OCP.PyErr Bool)
      = Except.error OCP.PyErr.missingAttribute := h
  exact OCP.PyErr.noConfusion (Except.error.inj h2)

/-- C7 amended: on a well-formed item, with every attribute present,
is_satisfied is total and never errors; and whenever evaluation on a
duck-typed item does error, the error surfaced to the caller is the Python
AttributeError, never a silent coercion to false and never the
missingAttribute kind of the specification taxonomy. -/
theorem is_satisfiedE_total_or_attributeError (S : OCP.Spec) (I : OCP.DuckItem) :
    (I.colorAttr.isSome = true → I.sizeAttr.isSome = true →
      ∃ b, S.is_satisfiedE I = Except.ok b) ∧
    (∀ e, S.is_satisfiedE I = Except.error e → e = OCP.PyErr.attributeError) := by
  induction S with
  | ColorSpecification c =>
    constructor
    · intro hc _
      cases hcol : I.colorAttr with
      | none => rw [hcol] at hc; simp at hc
      | some col =>
        exact ⟨col == c, by simp [OCP.Spec.is_satisfiedE, OCP.DuckItem.getColor, hcol]⟩
    · intro e he
      cases hcol : I.colorAttr with
      | none =>
        simp [OCP.Spec.is_satisfiedE, OCP.DuckItem.getColor, hcol] at he
        exact he.symm
      | some col =>
        simp [OCP.Spec.is_satisfiedE, OCP.DuckItem.getColor, hcol] at he
  | SizeSpecification sz =>
    constructor
    · intro _ hs
      cases hsz : I.sizeAttr with
      | none => rw [hsz] at hs; simp at hs
      | some s0 =>
        exact ⟨sz == s0, by simp [OCP.Spec.is_satisfiedE, OCP.DuckItem.getSize, hsz]⟩
    · intro e he
      cases hsz : I.sizeAttr with
      | none =>
        simp [OCP.Spec.is_satisfiedE, OCP.DuckItem.getSize, hsz] at he
        exact he.symm
      | some s0 =>
        simp [OCP.Spec.is_satisfiedE, OCP.DuckItem.getSize, hsz] at he
  | AndSpecification s1 s2 ih1 ih2 =>
    constructor
    · intro hc hs
      obtain ⟨b1, hb1⟩ := ih1.1 hc hs
      cases b1 with
      | false => exact ⟨false, by simp [OCP.Spec.is_satisfiedE, hb1]⟩
      | true =>
        obtain ⟨b2, hb2⟩ := ih2.1 hc hs
        exact ⟨b2, by simp [OCP.Spec.is_satisfiedE, hb1, hb2]⟩
    · intro e he
      simp only [OCP.Spec.is_satisfiedE] at he
      cases h1 : s1.is_satisfiedE I with
      | error e1 =>
        rw [h1] at he
        have : e1 = e := by
          simpa using congrArg (fun x => match x with
            | Except.error e0 => e0
            | Except.ok _ => e) he
        exact this ▸ ih1.2 e1 h1
      | ok b1 =>
        rw [h1] at he
        cases b1 with
        | false => simp at he
        | true => exact ih2.2 e he

/-- Witness for the amended C7 theorem: on the well-formed green small item
the green color specification returns a boolean, and on the item lacking the
color attribute the surfaced error is the AttributeError. -/
theorem is_satisfiedE_total_or_attributeError_witness :
    (∃ b, OCP.Spec.is_satisfiedE OCP.green
        { colorAttr := some OCP.Color.GREEN, sizeAttr := some OCP.Size.SMALL }
      = Except.ok b) ∧
    OCP.PyErr.attributeError = OCP.PyErr.attributeError :=
  ⟨(is_satisfiedE_total_or_attributeError OCP.green
      { colorAttr := some OCP.Color.GREEN, sizeAttr := some OCP.Size.SMALL }).1
      (by decide) (by decide),
   (is_satisfiedE_total_or_attributeError OCP.green
      { colorAttr := none, sizeAttr := some OCP.Size.SMALL }).2
      OCP.PyErr.attributeError rfl⟩

/-- Helper: the count-equals-length invariant of a journal is preserved by
running any valid sequence of operations. -/
theorem journal_run_inv (ops : List SRP.JOp) : ∀ (j : SRP.Journal),
    j.count = (j.entries.length : Int) → SRP.ValidSeq j ops = true →
    (j.run ops).count = ((j.run ops).entries.length : Int) := by
  induction ops with
  | nil => intro j hj _; exact hj
  | cons op ops ih =>
    intro j hj hv
    rw [SRP.ValidSeq, Bool.and_eq_true] at hv
    obtain ⟨hv1, hv2⟩ := hv
    refine ih (j.applyOp op) ?_ hv2
    cases op with
    | add text =>
      simp only [SRP.Journal.applyOp, SRP.Journal.add_entry, List.length_append,
        List.length_cons, List.length_nil]
      push_cast
      omega
    | remove pos =>
      have hpos : pos < j.entries.length := by
        simpa [SRP.JOp.validOn] using hv1
      have hlen := List.length_eraseIdx_add_one hpos
      simp only [SRP.Journal.applyOp, SRP.Journal.remove_entry]
      omega

/-- C9: starting from a fresh Journal, after any sequence of add_entry calls
and remove_entry calls at valid positions, the count field equals the length
of the entries list. -/
theorem journal_count_invariant (ops : List SRP.JOp)
    (h : SRP.ValidSeq SRP.Journal.new ops = true) :
    (SRP.Journal.new.run ops).count =
      ((SRP.Journal.new.run ops).entries.length : Int) :=
  journal_run_inv ops SRP.Journal.new rfl h

/-- Witness for C9: the two add_entry calls of the usage example followed by
a remove_entry at position 0 form a valid sequence, and the resulting count
equals the resulting number of entries. -/
theorem journal_count_invariant_witness :
    SRP.ValidSeq SRP.Journal.new
        [SRP.JOp.add "I coded one program", SRP.JOp.add "I ate ice cream",
          SRP.JOp.remove 0] = true ∧
    (SRP.Journal.new.run
        [SRP.JOp.add "I coded one program", SRP.JOp.add "I ate ice cream",
          SRP.JOp.remove 0]).count =
      ((SRP.Journal.new.run
        [SRP.JOp.add "I coded one program", SRP.JOp.add "I ate ice cream",
          SRP.JOp.remove 0]).entries.length : Int) :=
  ⟨by decide,
   journal_count_invariant
     [SRP.JOp.add "I coded one program", SRP.JOp.add "I ate ice cream",
       SRP.JOp.remove 0] (by decide)⟩

/-- C10: the Rectangle height setter leaves the width unchanged and the width
setter leaves the height unchanged, whereas the overriding Square height
setter also stores the value into the width, so after setting a Square
height to v the area is v times v regardless of the prior width. -/
theorem rectangle_square_setter_frame (r : LSP.Rectangle) (v : Int) :
    (LSP.Rectangle.setHeight r v).width = r.width ∧
    (LSP.Rectangle.setWidth r v).height = r.height ∧
    (LSP.Square.setHeight r v).width = v ∧
    (LSP.Square.setHeight r v).area = v * v :=
  ⟨rfl, rfl, rfl, rfl⟩
